import Mathlib

/-!
Shallow embedding of the canonicalization, grouping and diff engine of
`check_table_structures.py` (runqueries variant unless noted), together with
proofs about its behaviour.

Python dicts are modelled as association lists `List (String × α)` in
insertion order with unique keys (a Python dict cannot hold two equal keys);
lookup returns the first match.  Console output (`print`) is modelled as an
accumulated list of `Finding` values.  Uncaught Python runtime errors
(KeyError, IndexError, UnboundLocalError) are modelled by the `PyError` type;
a function that can raise returns the findings printed before the error
together with an optional error.  Logging calls are collaborator side effects
out of scope of the spec and are modelled as no-ops, except where a claim is
about a diagnostic being emitted, in which case the diagnostic count is
returned explicitly.  Python string primitives (split, strip, startswith,
slicing, code-point comparison) are modelled by structural functions over the
character list of the string.
-/

/-- Lookup in an association list modelling a Python dict: first match wins. -/
def alookup {α : Type} (k : String) : List (String × α) → Option α
  | [] => none
  | p :: rest => if p.1 = k then some p.2 else alookup k rest

/-- Python `k in d` for a dict modelled as an association list. -/
def amem {α : Type} (k : String) (l : List (String × α)) : Bool :=
  (alookup k l).isSome

/-- Python `d[k] = v`: overwrite in place if the key exists (keeping its
position, as Python dicts do), else append at the end. -/
def ainsert {α : Type} (k : String) (v : α) (l : List (String × α)) :
    List (String × α) :=
  if amem k l then l.map (fun p => if p.1 = k then (k, v) else p)
  else l ++ [(k, v)]

/-- Python `s.split(sep)` for a one-character separator, on character
lists. -/
def splitOnPred (p : Char → Bool) : List Char → List (List Char)
  | [] => [[]]
  | c :: rest =>
    if p c then [] :: splitOnPred p rest
    else
      match splitOnPred p rest with
      | [] => [[c]]
      | piece :: pieces => (c :: piece) :: pieces

/-- Python `pat in line` substring containment. -/
def containsSublist (pat : List Char) : List Char → Bool
  | [] => pat.isEmpty
  | c :: rest => pat.isPrefixOf (c :: rest) || containsSublist pat rest

/-- Python `s.startswith(pre)`. -/
def pyStartsWith (s pre : String) : Bool :=
  pre.data.isPrefixOf s.data

/-- Python `s.strip(' ')` on a character list. -/
def stripSpaces (l : List Char) : List Char :=
  ((l.dropWhile (fun c => c == ' ')).reverse.dropWhile (fun c => c == ' ')
    ).reverse

/-- Python `s.rstrip(',')` on a character list. -/
def rstripComma (l : List Char) : List Char :=
  (l.reverse.dropWhile (fun c => c == ',')).reverse

/-- Python code-point comparison `a <= b` of two strings, as character
lists. -/
def charListLe : List Char → List Char → Bool
  | [], _ => true
  | _ :: _, [] => false
  | a :: as, b :: bs => if a = b then charListLe as bs else decide (a < b)

/-- Python `a <= b` on strings, the order `sort_keys=True` sorts by. -/
def pyStrLe (a b : String) : Prop := charListLe a.data b.data = true

instance : DecidableRel pyStrLe := fun a b =>
  inferInstanceAs (Decidable (charListLe a.data b.data = true))

/-- Python `sep.join(pieces)` (used through the serialized-object models). -/
def strIntercalate (sep : String) : List String → String
  | [] => ""
  | [x] => x
  | x :: y :: ys => x ++ sep ++ strIntercalate sep (y :: ys)

/-- One table structure as built by `format_create_table_info`: the dict
with entries `table`, `columns` (ordered dict name -> properties text),
`keys` (list of lines), `parameters` (list of lines). -/
structure TableInfo where
  table : String
  columns : List (String × String)
  keys : List String
  parameters : List String
deriving DecidableEq, Repr

/-- Uncaught Python runtime errors that the embedded code can raise.
`typeError` models TypeError (string concatenation or join applied to a
non-string); `engineError` models a re-raised MySQLdb error code. -/
inductive PyError where
  | keyError (key : String)
  | indexError
  | unboundLocal
  | typeError
  | engineError (code : Nat)
deriving DecidableEq, Repr

/-- One line printed by the diff engine. -/
inductive Finding where
  | columnMissing (table col host wiki : String)
  | columnExtra (table col host wiki : String)
  | columnMismatch (table col replProps : String)
  | keyMissing (table key host wiki : String)
  | keyExtra (table key host wiki : String)
  | paramsMissingOnRepl (table : String) (fields : List String) (host wiki : String)
  | paramsExtraOnRepl (table : String) (fields : List String) (host wiki : String)
  | paramValueDiffs (table : String) (diffs : List String) (host wiki : String)
  | tableMissingOnMaster (table : String)
  | tableMissingOnReplica (table : String)
  | tableMissingFromReplica (table host wiki : String)
  | tableExtraOnReplica (table host wiki : String)
  | noTablesForWiki (host : String)
  | noDiffsAvailable (wiki host : String)
deriving DecidableEq, Repr

/-- Output of a fallible printing routine: the findings printed before
returning or failing, and the error if one was raised. -/
abbrev PyResult := List Finding × Option PyError

/-- Python `text.lstrip(') ')`. -/
def lstripParenSpace (s : String) : String :=
  String.mk (s.data.dropWhile (fun c => c == ')' || c == ' '))

/-- Python `text.split()` with no argument: split on whitespace, discarding
empty pieces. -/
def pysplit (s : String) : List String :=
  ((splitOnPred Char.isWhitespace s.data).map String.mk).filter
    (fun piece => piece ≠ "")

/-- TableDiffs.params_to_dict: turn a parameters line such as
`) ENGINE=InnoDB AUTO_INCREMENT=1480546 DEFAULT CHARSET=binary` into a dict
from field name to optional value (a token without `=` maps to None). -/
def params_to_dict (text : String) : List (String × Option String) :=
  (pysplit (lstripParenSpace text)).foldl
    (fun params entry =>
      match (splitOnPred (fun c => c == '=') entry.data).map String.mk with
      | [] => params
      | [k] => ainsert k none params
      | k :: v :: _ => ainsert k (some v) params)
    []

/-- TableDiffs.display_parameter_diffs (runqueries variant): `ignores` is
`self.args[..]` for the `params_ignore` setting, already split on commas.
The first statement of the function indexes `master.parameters[0]` and the
`if` condition indexes `repl.parameters[0]`, so an empty parameters list on
either side raises IndexError before anything is printed. -/
def display_parameter_diffs (ignores : List String) (host : String)
    (master repl : TableInfo) (table wiki : String) : PyResult :=
  match master.parameters.head? with
  | none => ([], some .indexError)
  | some mline =>
    match repl.parameters.head? with
    | none => ([], some .indexError)
    | some rline =>
      if mline = rline then ([], none)
      else
        let master_params := params_to_dict mline
        let repl_params := params_to_dict rline
        let master_params_missing :=
          (master_params.map Prod.fst).filter
            (fun field => field ∉ ignores && !(amem field repl_params))
        let param_diffs :=
          master_params.filterMap (fun p =>
            if p.1 ∈ ignores then none
            else match alookup p.1 repl_params with
              | none => none
              | some rv =>
                if p.2 ≠ rv ∧ p.1 ∉ ignores then
                  some (p.1 ++ ": master " ++
                        (p.2.getD "None") ++ ", repl " ++ (rv.getD "None"))
                else none)
        let repl_params_missing :=
          (repl_params.map Prod.fst).filter
            (fun field => field ∉ ignores && !(amem field master_params))
        ((if master_params_missing ≠ [] then
            [Finding.paramsMissingOnRepl table master_params_missing host wiki]
          else []) ++
         (if repl_params_missing ≠ [] then
            [Finding.paramsExtraOnRepl table repl_params_missing host wiki]
          else []) ++
         (if param_diffs ≠ [] then
            [Finding.paramValueDiffs table param_diffs host wiki]
          else []), none)

/-- TableDiffs.display_key_diffs: membership differences of the two key-line
lists, master side first. -/
def display_key_diffs (host : String) (master repl : TableInfo)
    (table wiki : String) : List Finding :=
  (master.keys.filter (fun k => k ∉ repl.keys)).map
    (fun k => Finding.keyMissing table k host wiki) ++
  (repl.keys.filter (fun k => k ∉ master.keys)).map
    (fun k => Finding.keyExtra table k host wiki)

/-- TableDiffs.display_column_diffs.  The third `for` loop of the source has
`continue` as its whole body, so its only effect is to leave the loop
variable bound to the last iterated element; the final mismatch comparison
sits after (not inside) that loop, dedented, and subscripts both column
dicts with that loop variable unconditionally.  After the three loops the
variable holds the last master column if there is one, else the last repl
column if there is one, else it is still unbound. -/
def display_column_diffs (host : String) (master repl : TableInfo)
    (table wiki : String) : PyResult :=
  let missing :=
    ((master.columns.map Prod.fst).filter
      (fun c => !(amem c repl.columns))).map
      (fun c => Finding.columnMissing table c host wiki)
  let extra :=
    ((repl.columns.map Prod.fst).filter
      (fun c => !(amem c master.columns))).map
      (fun c => Finding.columnExtra table c host wiki)
  let loopVar :=
    match (master.columns.map Prod.fst).getLast? with
    | some c => some c
    | none => (repl.columns.map Prod.fst).getLast?
  match loopVar with
  | none => (missing ++ extra, some .unboundLocal)
  | some column =>
    match alookup column master.columns with
    | none => (missing ++ extra, some (.keyError column))
    | some mval =>
      match alookup column repl.columns with
      | none => (missing ++ extra, some (.keyError column))
      | some rval =>
        (missing ++ extra ++
         (if mval ≠ rval then [Finding.columnMismatch table column rval]
          else []), none)

/-- TableDiffs.display_table_diffs: `master` or `repl` being `none` models
the falsy empty dict (as returned for absent or malformed tables); otherwise
run the column, key and parameter diffs in order, stopping at the first
uncaught error. -/
def display_table_diffs (ignores : List String) (host : String)
    (master repl : Option TableInfo) (table wiki : String) : PyResult :=
  match master, repl with
  | none, none => ([], none)
  | none, some _ => ([Finding.tableMissingOnMaster table], none)
  | some _, none => ([Finding.tableMissingOnReplica table], none)
  | some m, some r =>
    let colres := display_column_diffs host m r table wiki
    match colres.2 with
    | some e => (colres.1, some e)
    | none =>
      let f2 := display_key_diffs host m r table wiki
      let parres := display_parameter_diffs ignores host m r table wiki
      (colres.1 ++ f2 ++ parres.1, parres.2)

/-- Per-wiki table map: table name to its formatted info, `none` standing for
the empty dict returned for absent or malformed tables. -/
abbrev TableMap := List (String × Option TableInfo)

/-- The full result matrix `host -> wiki -> table map`. -/
abbrev HostWikiTables := List (String × List (String × TableMap))

/-- Flattened descriptions `host -> wiki -> canonical json string`. -/
abbrev HostWikiDescr := List (String × List (String × String))

/-- The `params_ignore` entry of `queries.config.get_config_defaults`, after
`parse_config` splits it on commas. -/
def default_params_ignore : List String :=
  ["AUTO_INCREMENT", "DEFAULT", "AVG_ROW_LENGTH"]

/-- Model of a json string literal.  The inputs serialized here (table,
column and key text from `SHOW CREATE TABLE`) contain no character that
`json.dumps` escapes, so quoting is plain. -/
def jsonStr (s : String) : String := "\"" ++ s ++ "\""

/-- Python `None` serializes as `null`. -/
def jsonOptStr : Option String → String
  | none => "null"
  | some s => jsonStr s

/-- Model of a json object with already-serialized fields, using the default
separators of `json.dumps`. -/
def jsonObj (fields : List String) : String :=
  "\x7b" ++ strIntercalate ", " fields ++ "\x7d"

/-- Model of a json array of already-serialized items. -/
def jsonList (items : List String) : String :=
  "[" ++ strIntercalate ", " items ++ "]"

/-- One `key: value` field of a json object. -/
def jsonField (k v : String) : String := jsonStr k ++ ": " ++ v

/-- Key sort used to model `json.dumps(obj, sort_keys=True)`. -/
def sortStrings (l : List String) : List String :=
  List.insertionSort pyStrLe l

/-- Serialization of a string-valued dict with sorted keys, as `json.dumps`
with `sort_keys=True` renders it.  A dict has unique keys, so emitting each
sorted key with its looked-up value matches the sorted iteration. -/
def jsonStrDict (l : List (String × String)) : String :=
  jsonObj ((sortStrings (l.map Prod.fst)).map
    (fun k => jsonField k (jsonStr ((alookup k l).getD ""))))

/-- Serialization of a parameter dict (values may be None) with sorted keys. -/
def jsonParamDict (l : List (String × Option String)) : String :=
  jsonObj ((sortStrings (l.map Prod.fst)).map
    (fun k => jsonField k (jsonOptStr ((alookup k l).getD none))))

/-- The ignore-list removal in `TableGetter.flatten_one_wiki`: each name in
`ignores` is popped from the parameter dict. -/
def paramsFilterIgnores (params : List (String × Option String))
    (ignores : List String) : List (String × Option String) :=
  params.filter (fun p => p.1 ∉ ignores)

/-- Canonical serialization of one table structure as embedded in
`TableGetter.flatten_one_wiki`: parameters are replaced by the ignore-filtered
parameter dict of `parameters[0]` and the whole dict is rendered by
`json.dumps(..., sort_keys=True)`; the sorted key order of the table dict is
columns, keys, parameters, table.  An empty parameters list makes the
`parameters[0]` subscript raise IndexError. -/
def canonical_table_json (t : TableInfo) (ignores : List String) :
    Except PyError String :=
  match t.parameters.head? with
  | none => .error .indexError
  | some p0 =>
    let filtered := paramsFilterIgnores (params_to_dict p0) ignores
    .ok (jsonObj [jsonField "columns" (jsonStrDict t.columns),
                  jsonField "keys" (jsonList (t.keys.map jsonStr)),
                  jsonField "parameters" (jsonParamDict filtered),
                  jsonField "table" (jsonStr t.table)])

/-- TableGetter.flatten_one_wiki: serialize the whole per-wiki table map with
sorted table names; a `none` (empty dict) table serializes as an empty json
object. -/
def flatten_one_wiki (tm : TableMap) (ignores : List String) :
    Except PyError String := do
  let fields ← (sortStrings (tm.map Prod.fst)).mapM (fun tbl =>
    match (alookup tbl tm).getD none with
    | none => pure (jsonField tbl "\x7b\x7d")
    | some t => do pure (jsonField tbl (← canonical_table_json t ignores)))
  pure (jsonObj fields)

/-- TableGetter.flatten_table_info: flatten every host and wiki of the
matrix. -/
def flatten_table_info (matrix : HostWikiTables) (ignores : List String) :
    Except PyError HostWikiDescr :=
  matrix.mapM (fun hp => do
    let wmap ← hp.2.mapM (fun wp => do
      pure (wp.1, ← flatten_one_wiki wp.2 ignores))
    pure (hp.1, wmap))

/-- Membership test `dbhost in descr and wiki in descr[dbhost]` followed by
the access, combined into one lookup. -/
def descrLookup (descr : HostWikiDescr) (host wiki : String) : Option String :=
  match alookup host descr with
  | none => none
  | some m => alookup wiki m

/-- One iteration of the grouping loop: `groups[d].append(dbhost)` when the
description is already a key, else `groups[d] = [dbhost]`. -/
def add_host_to_groups (groups : List (String × List String))
    (d dbhost : String) : List (String × List String) :=
  if amem d groups then
    groups.map (fun p => if p.1 = d then (p.1, p.2 ++ [dbhost]) else p)
  else groups ++ [(d, [dbhost])]

/-- HostWikiGroups.get_grouped_hosts_one_wiki: bucket the listed hosts that
have a description for the wiki by that description, in host-list order; a
fresh description opens a new bucket at the end. -/
def get_grouped_hosts_one_wiki (descr : HostWikiDescr)
    (dbhosts : List String) (wiki : String) : List (String × List String) :=
  dbhosts.foldl (fun groups dbhost =>
    match descrLookup descr dbhost wiki with
    | none => groups
    | some d => add_host_to_groups groups d dbhost) []

/-- HostWikiGroups.get_matching_hosts: first bucket containing the host, or
an empty list. -/
def get_matching_hosts (host : String)
    (hosts_by_result : List (String × List String)) : List String :=
  match hosts_by_result.find? (fun p => p.2.contains host) with
  | some p => p.2
  | none => []

/-- The per-wiki body of TableDiffs.display_diffs_master_per_sect for one
master and one wiki.  After the groups for the wiki are computed, the body
formats a log line with `" ".join([grouped_dbhosts[wiki].values() for wiki
in grouped_dbhosts])`: the grouping was requested for this single wiki, so
the joined list has exactly one element, a dict values view — never a
string — and `str.join` raises TypeError unconditionally.  The
diff-selection loop written below that line is therefore never reached, so
no replica is ever diffed against the master (or against anything else) in
per-shard mode.  The embedding returns the groups computed before the
crash, the replicas actually diffed against the master (always none), and
the aborting error. -/
def display_diffs_per_sect_wiki (descr : HostWikiDescr)
    (dbhosts_todo : List String) (master wiki : String) :
    List (String × List String) × List String × Option PyError :=
  let grouped := get_grouped_hosts_one_wiki descr dbhosts_todo wiki
  (grouped, [], some .typeError)

/-- Result of `queries.dbinfo.DbInfo.do_use_wiki`: True on success, False on
dryrun, None when the engine reported unknown database (1049) and the caller
passed `lost_conn_ok`. -/
inductive UseWikiResult where
  | okay
  | dry
  | lostConn
deriving DecidableEq, Repr

/-- What the engine answers to the `USE` statement. -/
inductive EngineUseResponse where
  | success
  | err (code : Nat)
deriving DecidableEq, Repr

/-- A Python value as passed to `do_use_wiki`: a wiki name string, the
database cursor object, or None (the cursor placeholder of a dryrun). -/
inductive PyVal where
  | str (s : String)
  | cursorObj
  | pyNone
deriving DecidableEq, Repr

/-- DbInfo.do_use_wiki (queries/dbinfo.py), parameters in source order:
cursor, then wiki.  Its first statement builds the query string by
concatenating `USE ` with the wiki argument — before the dryrun test and
before anything reaches the engine — so when that argument is not a string
the concatenation raises TypeError.  With a string wiki: False on dryrun,
None (the unknown-database outcome) when the engine reports 1049 and
`lost_conn_ok` was passed, True on success, and a re-raised engine error
otherwise. -/
def do_use_wiki (cursor : PyVal) (wiki : PyVal) (dryrun : Bool)
    (resp : EngineUseResponse) (lost_conn_ok : Bool) :
    Except PyError UseWikiResult :=
  match cursor, wiki with
  | _, .str _ =>
    if dryrun then .ok .dry
    else
      match resp with
      | .success => .ok .okay
      | .err code =>
        if lost_conn_ok ∧ code = 1049 then .ok .lostConn
        else .error (.engineError code)
  | _, _ => .error .typeError

/-- TableGetter.check_tables of the runqueries variant.  The call site reads
`do_use_wiki(wiki, dbcursor, lost_conn_ok=True)` while the signature is
`do_use_wiki(self, cursor, wiki, lost_conn_ok=False)`: the two positional
arguments are swapped, so the cursor parameter receives the wiki string and
the wiki parameter receives the cursor object (None on a dryrun).  The
`USE ` concatenation inside `do_use_wiki` therefore raises TypeError on
every call; the `is None` test absorbing the unknown-database outcome, and
the per-table collection below it, are dead code. -/
def check_tables (wiki : String) (dbcursor : PyVal) (dryrun : Bool)
    (resp : EngineUseResponse) (tables : List String)
    (fetch : String → Option TableInfo) : Except PyError TableMap :=
  match do_use_wiki (.str wiki) dbcursor dryrun resp true with
  | .error e => .error e
  | .ok .lostConn => .ok []
  | .ok _ => .ok (tables.foldl (fun acc t => ainsert t (fetch t) acc) [])

/-- Body of TableDiffs.display_wikidb_diff after both table maps are in
hand: missing and extra tables first, then per-table diffs for the common
tables, stopping at the first uncaught error. -/
def wikidb_diff_body (ignores : List String) (dbhost wiki : String)
    (master repl : TableMap) : PyResult :=
  let missingT := ((master.map Prod.fst).filter (fun t => !(amem t repl))).map
      (fun t => Finding.tableMissingFromReplica t dbhost wiki)
  let extraT := ((repl.map Prod.fst).filter (fun t => !(amem t master))).map
      (fun t => Finding.tableExtraOnReplica t dbhost wiki)
  let common := (master.map Prod.fst).filter (fun t => amem t repl)
  let body := common.foldl (fun (st : PyResult) t =>
    match st.2 with
    | some _ => st
    | none =>
      let r := display_table_diffs ignores dbhost
        ((alookup t master).getD none) ((alookup t repl).getD none) t wiki
      (st.1 ++ r.1, r.2)) ([], none)
  (missingT ++ extraT ++ body.1, body.2)

/-- TableDiffs.display_wikidb_diff: the replica map must exist, else only a
notice is printed; with `mainWiki` unset the master map is fetched by plain
subscripts, which raise KeyError when the master lacks the wiki. -/
def display_wikidb_diff (ignores : List String) (matrix : HostWikiTables)
    (dbhost wiki mainMaster : String) (mainWiki : Option String) : PyResult :=
  let replMap? := match alookup dbhost matrix with
    | none => none
    | some m => alookup wiki m
  match replMap? with
  | none => ([Finding.noTablesForWiki dbhost], none)
  | some repl =>
    match mainWiki with
    | some mw =>
      match alookup mainMaster matrix with
      | none => ([Finding.noDiffsAvailable mw mainMaster], none)
      | some mm =>
        match alookup mw mm with
        | none => ([Finding.noDiffsAvailable mw mainMaster], none)
        | some master => wikidb_diff_body ignores dbhost wiki master repl
    | none =>
      match alookup mainMaster matrix with
      | none => ([], some (.keyError mainMaster))
      | some mm =>
        match alookup wiki mm with
        | none => ([], some (.keyError wiki))
        | some master => wikidb_diff_body ignores dbhost wiki master repl

/-- Python `line.strip(' ').rstrip(',')` applied to each DDL line. -/
def stripLine (s : String) : String :=
  String.mk (rstripComma (stripSpaces s.data))

/-- TableGetter.format_create_table_info.  The returned pair carries the
table info (`none` models the empty dict returned for an unexpected first
line) and the number of `log.error` diagnostics emitted.  `lines[0][14:-3]`
is the Python slice extracting the table name from
`` CREATE TABLE `name` ( ``. -/
def format_create_table_info (sql_results : List (String × String)) :
    Except PyError (Option TableInfo × Nat) :=
  match sql_results.head? with
  | none => .error .indexError
  | some res =>
    let lines := ((splitOnPred (fun c => c == '\n') res.2.data).map
      String.mk).map stripLine
    match lines.head? with
    | none => .error .indexError
    | some l0 =>
      if !(pyStartsWith l0 "CREATE TABLE ") then
        .ok (none, 1)
      else do
        let tableName :=
          String.mk ((l0.data.drop 14).take (l0.data.length - 3 - 14))
        let columns ← lines.foldlM (fun cols line => do
          if pyStartsWith line "`" then
            match (splitOnPred (fun c => c == '`') line.data).map String.mk with
            | _ :: name :: props :: _ =>
              pure (ainsert name (String.mk (stripSpaces props.data)) cols)
            | _ => throw PyError.indexError
          else pure cols) ([] : List (String × String))
        let keys := lines.filter
          (fun line => containsSublist "KEY ".data line.data)
        let parameters := lines.filter (fun line => pyStartsWith line ")")
        pure (some ⟨tableName, columns, keys, parameters⟩, 0)

/-- TableInfo.format_create_table_info of the checktables variant
(src/checktables/check_table_structures.py): the same parsing, but the
unexpected-first-line branch returns the empty result silently — that
branch carries only a FIXME comment about logging, so the diagnostic count
is zero. -/
def format_create_table_info_checktables
    (sql_results : List (String × String)) :
    Except PyError (Option TableInfo × Nat) :=
  match sql_results.head? with
  | none => .error .indexError
  | some res =>
    let lines := ((splitOnPred (fun c => c == '\n') res.2.data).map
      String.mk).map stripLine
    match lines.head? with
    | none => .error .indexError
    | some l0 =>
      if !(pyStartsWith l0 "CREATE TABLE ") then
        .ok (none, 0)
      else do
        let tableName :=
          String.mk ((l0.data.drop 14).take (l0.data.length - 3 - 14))
        let columns ← lines.foldlM (fun cols line => do
          if pyStartsWith line "`" then
            match (splitOnPred (fun c => c == '`') line.data).map String.mk with
            | _ :: name :: props :: _ =>
              pure (ainsert name (String.mk (stripSpaces props.data)) cols)
            | _ => throw PyError.indexError
          else pure cols) ([] : List (String × String))
        let keys := lines.filter
          (fun line => containsSublist "KEY ".data line.data)
        let parameters := lines.filter (fun line => pyStartsWith line ")")
        pure (some ⟨tableName, columns, keys, parameters⟩, 0)

/-- Combined lookup `matrix[host][wiki]` guarded by the membership tests the
source performs. -/
def matrixLookup (m : HostWikiTables) (host wiki : String) : Option TableMap :=
  match alookup host m with
  | none => none
  | some hm => alookup wiki hm

/-- Recognizer for the single mismatch finding shape of the column diff. -/
def isMismatchFinding : Finding → Bool
  | .columnMismatch _ _ _ => true
  | _ => false

instance {ε α : Type} [DecidableEq ε] [DecidableEq α] :
    DecidableEq (Except ε α) := fun a b =>
  match a, b with
  | .ok x, .ok y =>
    if h : x = y then isTrue (by rw [h]) else isFalse (by simp [h])
  | .error x, .error y =>
    if h : x = y then isTrue (by rw [h]) else isFalse (by simp [h])
  | .ok _, .error _ => isFalse (by simp)
  | .error _, .ok _ => isFalse (by simp)

/-- Baseline table of the end-to-end scenario of the spec (section 8). -/
def scn_master : TableInfo :=
  ⟨"page",
   [("id", "int unsigned NOT NULL"), ("name", "varbinary(255) NOT NULL")],
   ["PRIMARY KEY (`id`)"],
   [") ENGINE=InnoDB AUTO_INCREMENT=5 DEFAULT CHARSET=binary"]⟩

/-- Replica table of the end-to-end scenario: one extra column and a
different AUTO_INCREMENT. -/
def scn_repl_extra : TableInfo :=
  ⟨"page",
   [("id", "int unsigned NOT NULL"), ("name", "varbinary(255) NOT NULL"),
    ("extra", "tinyint unsigned NOT NULL")],
   ["PRIMARY KEY (`id`)"],
   [") ENGINE=InnoDB AUTO_INCREMENT=900 DEFAULT CHARSET=binary"]⟩

/-- Replica table differing from `scn_master` only in the AUTO_INCREMENT
parameter value. -/
def scn_repl_same : TableInfo :=
  ⟨"page",
   [("id", "int unsigned NOT NULL"), ("name", "varbinary(255) NOT NULL")],
   ["PRIMARY KEY (`id`)"],
   [") ENGINE=InnoDB AUTO_INCREMENT=900 DEFAULT CHARSET=binary"]⟩

/-- Baseline with two columns whose first common column differs from the
target while the last one agrees. -/
def cex_master_ab : TableInfo :=
  ⟨"t", [("a", "int NOT NULL"), ("b", "blob NOT NULL")], [], [") ENGINE=InnoDB"]⟩

/-- Target agreeing with `cex_master_ab` on column b but not on column a. -/
def cex_repl_ab : TableInfo :=
  ⟨"t", [("a", "bigint NOT NULL"), ("b", "blob NOT NULL")], [], [") ENGINE=InnoDB"]⟩

/-- Structure with two key lines in one order. -/
def cex_keys_one : TableInfo :=
  ⟨"t", [("a", "int NOT NULL")],
   ["KEY `k1` (`a`)", "KEY `k2` (`a`)"], [") ENGINE=InnoDB"]⟩

/-- The same structure with the two key lines swapped. -/
def cex_keys_two : TableInfo :=
  ⟨"t", [("a", "int NOT NULL")],
   ["KEY `k2` (`a`)", "KEY `k1` (`a`)"], [") ENGINE=InnoDB"]⟩

/-- Structure with zero columns (producible from a DDL text with no
backquoted lines). -/
def cex_zero_columns : TableInfo :=
  ⟨"t", [], [], [") ENGINE=InnoDB"]⟩

/-- Structure with an empty parameters list (producible from a DDL text with
no line starting with a closing paren). -/
def cex_empty_params : TableInfo :=
  ⟨"t", [("a", "int NOT NULL")], [], []⟩

/-- Baseline with zero columns for the mismatch-check analysis. -/
def cex_zero_col_master : TableInfo :=
  ⟨"t", [], [], [") ENGINE=InnoDB"]⟩

/-- Target with one column, paired with `cex_zero_col_master`. -/
def cex_one_col_repl : TableInfo :=
  ⟨"t", [("extra", "int NOT NULL")], [], [") ENGINE=InnoDB"]⟩

/-- Baseline whose last column is absent from the paired target. -/
def cex_last_absent_master : TableInfo :=
  ⟨"t", [("a", "int NOT NULL"), ("gone", "blob NOT NULL")], [], [") ENGINE=InnoDB"]⟩

/-- Target lacking the last baseline column of `cex_last_absent_master`. -/
def cex_last_absent_repl : TableInfo :=
  ⟨"t", [("a", "int NOT NULL")], [], [") ENGINE=InnoDB"]⟩

/-- Per-wiki table map of the scenario master. -/
def c8_tm_master : TableMap := [("page", some scn_master)]

/-- Per-wiki table map of both scenario replicas (byte-identical DDL). -/
def c8_tm_repl : TableMap := [("page", some scn_repl_same)]

/-- Flattened description shared by the master and both replicas once
AUTO_INCREMENT is ignored. -/
def c8_descr_val : String :=
  (flatten_one_wiki c8_tm_master default_params_ignore).toOption.getD ""

/-- Description matrix of the matching-group scenario. -/
def c8_descr : HostWikiDescr :=
  [("m1", [("w", c8_descr_val)]),
   ("r1", [("w", c8_descr_val)]),
   ("r2", [("w", c8_descr_val)])]

/-- Target whose last common column with `cex_master_ab` differs in property
text. -/
def cex_last_diff_repl : TableInfo :=
  ⟨"t", [("a", "int NOT NULL"), ("b", "bigint NOT NULL")], [],
   [") ENGINE=InnoDB"]⟩

/-- Structure with two columns inserted in one order. -/
def cex_cols_one : TableInfo :=
  ⟨"t", [("a", "int NOT NULL"), ("b", "blob NOT NULL")],
   ["PRIMARY KEY (`a`)"], [") ENGINE=InnoDB"]⟩

/-- The same structure with its columns inserted in the other order. -/
def cex_cols_two : TableInfo :=
  ⟨"t", [("b", "blob NOT NULL"), ("a", "int NOT NULL")],
   ["PRIMARY KEY (`a`)"], [") ENGINE=InnoDB"]⟩

/-! ### Order properties of the modelled code-point comparison -/

theorem charListLe_total : ∀ as bs : List Char,
    charListLe as bs = true ∨ charListLe bs as = true
  | [], _ => Or.inl rfl
  | _ :: _, [] => Or.inr rfl
  | a :: as, b :: bs => by
    by_cases hab : a = b
    · subst hab
      rcases charListLe_total as bs with h | h
      · exact Or.inl (by simpa [charListLe] using h)
      · exact Or.inr (by simpa [charListLe] using h)
    · have hba : ¬ b = a := fun e => hab e.symm
      rcases lt_or_gt_of_ne hab with hlt | hgt
      · exact Or.inl (by simp [charListLe, hab, hlt])
      · exact Or.inr (by simp [charListLe, hba, hgt])

theorem charListLe_trans : ∀ as bs cs : List Char,
    charListLe as bs = true → charListLe bs cs = true →
    charListLe as cs = true
  | [], _, _, _, _ => rfl
  | _ :: _, [], _, h1, _ => by simp [charListLe] at h1
  | _ :: _, _ :: _, [], _, h2 => by simp [charListLe] at h2
  | a :: as, b :: bs, c :: cs, h1, h2 => by
    by_cases hab : a = b <;> by_cases hbc : b = c
    · subst hab; subst hbc
      simp only [charListLe, if_pos rfl] at h1 h2 ⊢
      exact charListLe_trans as bs cs h1 h2
    · subst hab
      simp only [charListLe, if_pos rfl] at h1
      simpa [charListLe, hbc] using h2
    · subst hbc
      simp only [charListLe, if_pos rfl] at h2
      simpa [charListLe, hab] using h1
    · simp only [charListLe, if_neg hab] at h1
      simp only [charListLe, if_neg hbc] at h2
      have hac : a < c := lt_trans (of_decide_eq_true h1) (of_decide_eq_true h2)
      simp [charListLe, ne_of_lt hac, hac]

theorem charListLe_antisymm : ∀ as bs : List Char,
    charListLe as bs = true → charListLe bs as = true → as = bs
  | [], [], _, _ => rfl
  | [], _ :: _, _, h2 => by simp [charListLe] at h2
  | _ :: _, [], h1, _ => by simp [charListLe] at h1
  | a :: as, b :: bs, h1, h2 => by
    by_cases hab : a = b
    · subst hab
      simp only [charListLe, if_pos rfl] at h1 h2
      rw [charListLe_antisymm as bs h1 h2]
    · have hba : ¬ b = a := fun e => hab e.symm
      simp only [charListLe, if_neg hab] at h1
      simp only [charListLe, if_neg hba] at h2
      exact absurd (of_decide_eq_true h2) (lt_asymm (of_decide_eq_true h1))

instance : IsTotal String pyStrLe := ⟨fun a b => charListLe_total a.data b.data⟩

instance : IsTrans String pyStrLe :=
  ⟨fun a b c => charListLe_trans a.data b.data c.data⟩

instance : IsAntisymm String pyStrLe :=
  ⟨fun a b h1 h2 => by
    cases a with
    | mk da =>
      cases b with
      | mk db => exact congrArg String.mk (charListLe_antisymm da db h1 h2)⟩

theorem sortStrings_perm (l : List String) : (sortStrings l).Perm l :=
  List.perm_insertionSort pyStrLe l

theorem sortStrings_sorted (l : List String) :
    List.Sorted pyStrLe (sortStrings l) :=
  List.sorted_insertionSort pyStrLe l

theorem sortStrings_eq_of_perm {l1 l2 : List String} (h : l1.Perm l2) :
    sortStrings l1 = sortStrings l2 :=
  List.eq_of_perm_of_sorted
    ((sortStrings_perm l1).trans (h.trans (sortStrings_perm l2).symm))
    (sortStrings_sorted l1) (sortStrings_sorted l2)

/-! ### Association-list facts -/

theorem alookup_isSome_iff {α : Type} (k : String) :
    ∀ l : List (String × α), (alookup k l).isSome = true ↔ k ∈ l.map Prod.fst
  | [] => by simp [alookup]
  | p :: rest => by
    by_cases h : p.1 = k
    · simp [alookup, h]
    · have hne : ¬ k = p.1 := fun e => h e.symm
      simp [alookup, h, hne, alookup_isSome_iff k rest]

theorem amem_eq_true_iff {α : Type} (k : String) (l : List (String × α)) :
    amem k l = true ↔ k ∈ l.map Prod.fst := by
  unfold amem
  exact alookup_isSome_iff k l

theorem alookup_eq_none_iff {α : Type} (k : String) (l : List (String × α)) :
    alookup k l = none ↔ k ∉ l.map Prod.fst := by
  rw [← amem_eq_true_iff]
  unfold amem
  cases h : alookup k l <;> simp [h]

theorem alookup_append_left {α : Type} (k : String) {l1 : List (String × α)}
    (l2 : List (String × α)) {v : α} (h : alookup k l1 = some v) :
    alookup k (l1 ++ l2) = some v := by
  induction l1 with
  | nil => simp [alookup] at h
  | cons p rest ih =>
    by_cases hp : p.1 = k
    · simpa [alookup, hp] using h
    · simp only [alookup, hp, if_neg] at h ⊢
      exact ih h

theorem alookup_append_right {α : Type} (k : String)
    {l1 : List (String × α)} (l2 : List (String × α))
    (h : alookup k l1 = none) : alookup k (l1 ++ l2) = alookup k l2 := by
  induction l1 with
  | nil => rfl
  | cons p rest ih =>
    by_cases hp : p.1 = k
    · simp [alookup, hp] at h
    · simp only [alookup, hp, if_neg] at h ⊢
      exact ih h

theorem alookup_eq_some_of_mem_nodup {α : Type} {l : List (String × α)}
    (hnd : (l.map Prod.fst).Nodup) {p : String × α} (hp : p ∈ l) :
    alookup p.1 l = some p.2 := by
  induction l with
  | nil => simp at hp
  | cons q rest ih =>
    rcases List.mem_cons.mp hp with he | hm
    · subst he
      simp [alookup]
    · have hq : ¬ q.1 = p.1 := by
        intro e
        have : p.1 ∈ rest.map Prod.fst := List.mem_map_of_mem Prod.fst hm
        rw [← e] at this
        exact (List.nodup_cons.mp (by simpa using hnd)).1 this
      simp only [alookup, hq, if_neg]
      exact ih (List.nodup_cons.mp (by simpa using hnd)).2 hm

theorem ainsert_map_fst {α : Type} (k : String) (v : α)
    (l : List (String × α)) :
    (ainsert k v l).map Prod.fst =
      if amem k l then l.map Prod.fst else l.map Prod.fst ++ [k] := by
  unfold ainsert
  by_cases h : amem k l
  · simp only [h, if_true]
    rw [List.map_map]
    apply List.map_congr_left
    intro p _
    by_cases hp : p.1 = k <;> simp [hp]
  · simp [h]

theorem ainsert_keys_nodup {α : Type} (k : String) (v : α)
    {l : List (String × α)} (hnd : (l.map Prod.fst).Nodup) :
    ((ainsert k v l).map Prod.fst).Nodup := by
  rw [ainsert_map_fst]
  by_cases h : amem k l
  · simpa [h] using hnd
  · have hk : k ∉ l.map Prod.fst := by
      intro hm
      exact absurd ((amem_eq_true_iff k l).mpr hm) (by simpa using h)
    simp only [h, if_false]
    have hk2 : ∀ x : α, (k, x) ∉ l := by
      intro x hx
      exact hk (by simpa using List.mem_map_of_mem Prod.fst hx)
    simpa [List.nodup_append] using ⟨hnd, hk2⟩

theorem params_to_dict_keys_nodup (text : String) :
    ((params_to_dict text).map Prod.fst).Nodup := by
  unfold params_to_dict
  generalize pysplit (lstripParenSpace text) = entries
  have main : ∀ (es : List String) (acc : List (String × Option String)),
      (acc.map Prod.fst).Nodup →
      ((es.foldl (fun params entry =>
        match (splitOnPred (fun c => c == '=') entry.data).map String.mk with
        | [] => params
        | [k] => ainsert k none params
        | k :: v :: _ => ainsert k (some v) params) acc).map Prod.fst).Nodup := by
    intro es
    induction es with
    | nil => intro acc h; exact h
    | cons e rest ih =>
      intro acc h
      simp only [List.foldl_cons]
      cases hsplit : (splitOnPred (fun c => c == '=') e.data).map String.mk with
      | nil => exact ih acc h
      | cons k tail =>
        cases tail with
        | nil => exact ih _ (ainsert_keys_nodup k none h)
        | cons v _ => exact ih _ (ainsert_keys_nodup k (some v) h)
  exact main entries [] (by simp)

theorem map_fst_filter_ignores (l : List (String × Option String))
    (ig : List String) :
    (paramsFilterIgnores l ig).map Prod.fst =
      (l.map Prod.fst).filter (fun k => k ∉ ig) := by
  unfold paramsFilterIgnores
  induction l with
  | nil => rfl
  | cons p rest ih =>
    by_cases h : p.1 ∈ ig <;> simpa [List.filter_cons, h] using ih

theorem alookup_filter_ignores {k : String} {ig : List String} (hk : k ∉ ig) :
    ∀ l : List (String × Option String),
      alookup k (paramsFilterIgnores l ig) = alookup k l
  | [] => rfl
  | p :: rest => by
    by_cases hp : p.1 = k
    · subst hp
      simp [paramsFilterIgnores, List.filter_cons, hk, alookup]
    · by_cases hig : p.1 ∈ ig <;>
        simpa [paramsFilterIgnores, List.filter_cons, hig, alookup, hp] using
          alookup_filter_ignores hk rest

theorem not_ignored_of_mem_filtered {k : String} {ig : List String}
    {l : List (String × Option String)}
    (h : k ∈ (paramsFilterIgnores l ig).map Prod.fst) : k ∉ ig := by
  rw [map_fst_filter_ignores] at h
  simpa using List.of_mem_filter h

theorem jsonStrDict_congr {l1 l2 : List (String × String)}
    (hperm : (l1.map Prod.fst).Perm (l2.map Prod.fst))
    (hlook : ∀ k, alookup k l1 = alookup k l2) :
    jsonStrDict l1 = jsonStrDict l2 := by
  unfold jsonStrDict
  rw [sortStrings_eq_of_perm hperm]
  congr 1
  apply List.map_congr_left
  intro k _
  rw [hlook k]

theorem jsonParamDict_congr {l1 l2 : List (String × Option String)}
    (hperm : (l1.map Prod.fst).Perm (l2.map Prod.fst))
    (hlook : ∀ k, k ∈ l1.map Prod.fst → alookup k l1 = alookup k l2) :
    jsonParamDict l1 = jsonParamDict l2 := by
  unfold jsonParamDict
  rw [sortStrings_eq_of_perm hperm]
  congr 1
  apply List.map_congr_left
  intro k hk
  have hk2 : k ∈ l2.map Prod.fst := (sortStrings_perm _).subset hk
  have hk1 : k ∈ l1.map Prod.fst := hperm.mem_iff.mpr hk2
  rw [hlook k hk1]

theorem filter_not_amem_nil {α : Type} (l : List (String × α)) :
    (l.map Prod.fst).filter (fun c => !(amem c l)) = [] := by
  rw [List.filter_eq_nil_iff]
  intro c hc
  simp [(amem_eq_true_iff c l).mpr hc]

theorem mem_of_getLast?_eq {α : Type} {l : List α} {a : α}
    (h : l.getLast? = some a) : a ∈ l := by
  rcases List.getLast?_eq_some_iff.mp h with ⟨ys, rfl⟩
  simp

/-! ### Facts about the host grouping -/

theorem add_host_map_fst (groups : List (String × List String))
    (d x : String) :
    (add_host_to_groups groups d x).map Prod.fst =
      if amem d groups then groups.map Prod.fst
      else groups.map Prod.fst ++ [d] := by
  unfold add_host_to_groups
  by_cases h : amem d groups
  · simp only [h, if_true]
    rw [List.map_map]
    apply List.map_congr_left
    intro p _
    by_cases hp : p.1 = d <;> simp [hp]
  · simp [h]

theorem add_host_keys_nodup {groups : List (String × List String)}
    (d x : String) (hnd : (groups.map Prod.fst).Nodup) :
    ((add_host_to_groups groups d x).map Prod.fst).Nodup := by
  rw [add_host_map_fst]
  by_cases h : amem d groups
  · simpa [h] using hnd
  · have hd : d ∉ groups.map Prod.fst := by
      intro hm
      exact absurd ((amem_eq_true_iff d groups).mpr hm) (by simpa using h)
    have hd2 : ∀ v : List String, (d, v) ∉ groups := by
      intro v hv
      exact hd (by simpa using List.mem_map_of_mem Prod.fst hv)
    simp only [h, if_false]
    simpa [List.nodup_append] using ⟨hnd, hd2⟩

theorem count_flatten_update_bucket (h d x : String) :
    ∀ groups : List (String × List String),
      (groups.map Prod.fst).Nodup → amem d groups = true →
      (((groups.map (fun p => if p.1 = d then (p.1, p.2 ++ [x]) else p)).map
          Prod.snd).flatten.count h)
        = ((groups.map Prod.snd).flatten.count h) + (if x = h then 1 else 0)
  | [], _, hmem => by simp [amem, alookup] at hmem
  | (p1, p2) :: rest, hnd, hmem => by
    by_cases hp : p1 = d
    · subst hp
      have hdrest : p1 ∉ rest.map Prod.fst :=
        (List.nodup_cons.mp (by simpa using hnd)).1
      have hrest :
          rest.map (fun q => if q.1 = p1 then (q.1, q.2 ++ [x]) else q)
            = rest := by
        conv_rhs => rw [← List.map_id rest]
        apply List.map_congr_left
        intro q hq
        have hqd : ¬ q.1 = p1 := fun e =>
          hdrest (e ▸ List.mem_map_of_mem Prod.fst hq)
        simp [hqd]
      have hhead :
          ((fun q : String × List String =>
              if q.1 = p1 then (q.1, q.2 ++ [x]) else q) (p1, p2)).2
            = p2 ++ [x] := by simp
      simp only [List.map_cons, hrest, List.flatten_cons, hhead,
        List.count_append, List.count_singleton]
      by_cases hx : x = h
      · have hx2 : (x == h) = true := by simpa using hx
        simp only [hx2, if_pos, hx]
        simp
        omega
      · have hx2 : (x == h) = false := by simpa using hx
        simp [hx, hx2, List.count_singleton]
    · have hmem2 : amem d rest = true := by
        simpa [amem, alookup, hp] using hmem
      have ih := count_flatten_update_bucket h d x rest
        (List.nodup_cons.mp (by simpa using hnd)).2 hmem2
      have hhead :
          ((fun q : String × List String =>
              if q.1 = d then (q.1, q.2 ++ [x]) else q) (p1, p2))
            = (p1, p2) := by simp [hp]
      simp only [List.map_cons, hhead, List.flatten_cons,
        List.count_append, ih]
      omega

theorem count_flatten_add_host (h d x : String)
    (groups : List (String × List String))
    (hnd : (groups.map Prod.fst).Nodup) :
    (((add_host_to_groups groups d x).map Prod.snd).flatten.count h)
      = ((groups.map Prod.snd).flatten.count h) + (if x = h then 1 else 0) := by
  unfold add_host_to_groups
  by_cases hm : amem d groups
  · simpa [hm] using count_flatten_update_bucket h d x groups hnd hm
  · simp only [hm, if_false, List.map_append, List.flatten_append,
      List.count_append]
    by_cases hx : x = h
    · have hx2 : (x == h) = true := by simpa using hx
      simp [hx, hx2, List.count_singleton]
    · have hx2 : (x == h) = false := by simpa using hx
      simp [hx, hx2, List.count_singleton]

theorem grouped_fold_keys_nodup (descr : HostWikiDescr) (wiki : String) :
    ∀ (hosts : List String) (acc : List (String × List String)),
      (acc.map Prod.fst).Nodup →
      (((hosts.foldl (fun groups dbhost =>
          match descrLookup descr dbhost wiki with
          | none => groups
          | some d => add_host_to_groups groups d dbhost) acc)).map
            Prod.fst).Nodup
  | [], _, hnd => hnd
  | a :: rest, acc, hnd => by
    simp only [List.foldl_cons]
    cases hda : descrLookup descr a wiki with
    | none =>
      simpa [hda] using
        grouped_fold_keys_nodup descr wiki rest acc hnd
    | some d =>
      simpa [hda] using
        grouped_fold_keys_nodup descr wiki rest (add_host_to_groups acc d a)
          (add_host_keys_nodup d a hnd)

theorem grouped_fold_count (descr : HostWikiDescr) (wiki h : String) :
    ∀ (hosts : List String) (acc : List (String × List String)),
      (acc.map Prod.fst).Nodup →
      (((hosts.foldl (fun groups dbhost =>
          match descrLookup descr dbhost wiki with
          | none => groups
          | some d => add_host_to_groups groups d dbhost) acc)).map
            Prod.snd).flatten.count h
        = ((acc.map Prod.snd).flatten.count h)
          + (hosts.countP
              (fun x => x == h && (descrLookup descr x wiki).isSome))
  | [], _, _ => by simp
  | a :: rest, acc, hnd => by
    simp only [List.foldl_cons, List.countP_cons]
    cases hda : descrLookup descr a wiki with
    | none =>
      have ih := grouped_fold_count descr wiki h rest acc hnd
      simp [hda, ih]
    | some d =>
      have ih := grouped_fold_count descr wiki h rest
        (add_host_to_groups acc d a) (add_host_keys_nodup d a hnd)
      have step := count_flatten_add_host h d a acc hnd
      simp only [hda, ih, step, Option.isSome_some, Bool.and_true]
      by_cases hah : a = h
      · have hb : (a == h) = true := by simpa using hah
        simp only [hb, hah, if_pos]
        simp
        omega
      · have hb : (a == h) = false := by simpa using hah
        simp [hb, hah]

theorem countP_eq_key_entry (descr : HostWikiDescr) (wiki h : String) :
    ∀ hosts : List String, hosts.Nodup →
      hosts.countP (fun x => x == h && (descrLookup descr x wiki).isSome)
        = if h ∈ hosts ∧ (descrLookup descr h wiki).isSome then 1 else 0
  | [], _ => by simp
  | a :: rest, hnd => by
    obtain ⟨ha, hrest⟩ := List.nodup_cons.mp hnd
    rw [List.countP_cons]
    by_cases hah : a = h
    · subst hah
      have hzero :
          rest.countP (fun x => x == a && (descrLookup descr x wiki).isSome)
            = 0 := by
        rw [List.countP_eq_zero]
        intro x hx
        have hxa : (x == a) = false := by
          have : ¬ x = a := fun e => ha (e ▸ hx)
          simpa using this
        simp [hxa]
      cases hd : (descrLookup descr a wiki).isSome <;>
        simp [hzero, hd, List.mem_cons]
    · have hab : (a == h) = false := by simpa using hah
      have hne : ¬ h = a := fun e => hah e.symm
      rw [countP_eq_key_entry descr wiki h rest hrest]
      simp [hab, List.mem_cons, hne]

theorem grouped_hosts_count (descr : HostWikiDescr) (dbhosts : List String)
    (wiki h : String) (hnd : dbhosts.Nodup) :
    (((get_grouped_hosts_one_wiki descr dbhosts wiki).map
        Prod.snd).flatten.count h)
      = if h ∈ dbhosts ∧ (descrLookup descr h wiki).isSome then 1 else 0 := by
  unfold get_grouped_hosts_one_wiki
  rw [grouped_fold_count descr wiki h dbhosts [] (by simp)]
  simpa using countP_eq_key_entry descr wiki h dbhosts hnd

/-! ### Facts about dict insertion -/

theorem alookup_map_update {α : Type} (k : String) (v : α) :
    ∀ l : List (String × α), amem k l = true →
      alookup k (l.map (fun p => if p.1 = k then (k, v) else p)) = some v
  | [], hm => by simp [amem, alookup] at hm
  | p :: rest, hm => by
    by_cases hp : p.1 = k
    · simp [alookup, hp]
    · have hm2 : amem k rest = true := by
        simpa [amem, alookup, hp] using hm
      simpa [alookup, hp] using alookup_map_update k v rest hm2

theorem alookup_map_update_ne {α : Type} {j k : String} (hjk : ¬ j = k)
    (v : α) :
    ∀ l : List (String × α),
      alookup j (l.map (fun p => if p.1 = k then (k, v) else p)) = alookup j l
  | [] => rfl
  | p :: rest => by
    by_cases hp : p.1 = k
    · have h1 : ¬ k = j := fun e => hjk e.symm
      have h2 : ¬ p.1 = j := by rw [hp]; exact h1
      simp [alookup, hp, h1, h2, alookup_map_update_ne (α := α) hjk v rest]
    · by_cases hq : p.1 = j <;>
        simp [alookup, hp, hq, hjk, alookup_map_update_ne (α := α) hjk v rest]

theorem alookup_ainsert_self {α : Type} (k : String) (v : α)
    (l : List (String × α)) : alookup k (ainsert k v l) = some v := by
  unfold ainsert
  by_cases hm : amem k l
  · simpa [hm] using alookup_map_update k v l hm
  · have hnone : alookup k l = none := by
      cases h : alookup k l with
      | none => rfl
      | some v0 => exact absurd (by simp [amem, h]) hm
    have hb : amem k l = false := by simpa using hm
    simp only [hb, Bool.false_eq_true, if_false]
    rw [alookup_append_right k [(k, v)] hnone]
    simp [alookup]

theorem alookup_ainsert_ne {α : Type} {j k : String} (hjk : ¬ j = k) (v : α)
    (l : List (String × α)) : alookup j (ainsert k v l) = alookup j l := by
  unfold ainsert
  by_cases hm : amem k l
  · simpa [hm] using alookup_map_update_ne (α := α) hjk v l
  · have hb : amem k l = false := by simpa using hm
    simp only [hb, Bool.false_eq_true, if_false]
    cases h : alookup j l with
    | some v0 => exact alookup_append_left j [(k, v)] h
    | none =>
      rw [alookup_append_right j [(k, v)] h]
      have : ¬ k = j := fun e => hjk e.symm
      simp [alookup, this]

/-! ### Claim theorems -/

/-- C7: for the spec scenario — baseline columns id and name, key
PRIMARY(id), parameters `ENGINE=InnoDB AUTO_INCREMENT=5 DEFAULT
CHARSET=binary`, target adding column extra with AUTO_INCREMENT=900 — the
full table diff reports exactly one finding, column extra being extra on the
replica, with zero key findings, zero parameter findings (AUTO_INCREMENT and
DEFAULT are in the default ignore list) and no error, while the two
structures receive unequal canonical keys. -/
theorem c7_end_to_end_scenario :
    display_table_diffs default_params_ignore "db2099" (some scn_master)
        (some scn_repl_extra) "page" "enwiki"
      = ([Finding.columnExtra "page" "extra" "db2099" "enwiki"], none) ∧
    canonical_table_json scn_master default_params_ignore
      ≠ canonical_table_json scn_repl_extra default_params_ignore := by
  constructor
  · decide
  · decide

/-- C6 (amended): diffing a table structure against itself yields zero
findings and no error, provided the structure has at least one column and a
nonempty parameters list; with zero columns the dedented mismatch check
references a loop variable that no loop bound (UnboundLocalError), and with an
empty parameters list the parameter diff indexes `parameters[0]`
(IndexError), as the counterexample shows. -/
theorem c6_amended (ig : List String) (host table wiki : String)
    (t : TableInfo) (hcols : t.columns ≠ []) (hparams : t.parameters ≠ []) :
    display_table_diffs ig host (some t) (some t) table wiki = ([], none) := by
  obtain ⟨p0, prest, hp⟩ : ∃ p0 prest, t.parameters = p0 :: prest := by
    cases h : t.parameters with
    | nil => exact absurd h hparams
    | cons a b => exact ⟨a, b, rfl⟩
  have hcol : display_column_diffs host t t table wiki = ([], none) := by
    unfold display_column_diffs
    have hmiss : (t.columns.map Prod.fst).filter
        (fun c => !(amem c t.columns)) = [] := filter_not_amem_nil t.columns
    have hmapne : t.columns.map Prod.fst ≠ [] := by
      intro e
      exact hcols (List.map_eq_nil_iff.mp e)
    obtain ⟨c, hc⟩ : ∃ c, (t.columns.map Prod.fst).getLast? = some c := by
      cases hgl : (t.columns.map Prod.fst).getLast? with
      | some c => exact ⟨c, rfl⟩
      | none => exact absurd (List.getLast?_eq_none_iff.mp hgl) hmapne
    have hcm : c ∈ t.columns.map Prod.fst := mem_of_getLast?_eq hc
    obtain ⟨mv, hmv⟩ := Option.isSome_iff_exists.mp
      ((alookup_isSome_iff c t.columns).mpr hcm)
    simp [hmiss, hc, hmv]
  have hkey : display_key_diffs host t t table wiki = [] := by
    unfold display_key_diffs
    have h1 : t.keys.filter (fun k => k ∉ t.keys) = [] := by
      rw [List.filter_eq_nil_iff]
      intro k hk
      simp [hk]
    simp [h1]
  have hpar : display_parameter_diffs ig host t t table wiki = ([], none) := by
    unfold display_parameter_diffs
    simp [hp]
  unfold display_table_diffs
  simp [hcol, hkey, hpar]

/-- Witness for C6 (amended): the scenario baseline self-diffs cleanly. -/
theorem c6_amended_witness :
    display_table_diffs default_params_ignore "h" (some scn_master)
      (some scn_master) "page" "w" = ([], none) :=
  c6_amended default_params_ignore "h" "page" "w" scn_master (by decide)
    (by decide)

/-- Counterexample for C6 as stated: two structures the canonicalizer can
produce — one with zero columns (no backquoted DDL lines), one with an empty
parameters list (no closing-paren line) — make the self-diff raise instead
of completing without error. -/
theorem c6_counterexample :
    format_create_table_info [("t", "CREATE TABLE `t` (\n) ENGINE=InnoDB")]
      = .ok (some cex_zero_columns, 0) ∧
    format_create_table_info [("t", "CREATE TABLE `t` (\n`a` int NOT NULL")]
      = .ok (some cex_empty_params, 0) ∧
    display_table_diffs default_params_ignore "h" (some cex_zero_columns)
        (some cex_zero_columns) "t" "w" = ([], some .unboundLocal) ∧
    display_table_diffs default_params_ignore "h" (some cex_empty_params)
        (some cex_empty_params) "t" "w" = ([], some .indexError) := by
  refine ⟨by rfl, by rfl, by decide, by decide⟩

/-- C9 (amended): a SHOW CREATE TABLE result whose (stripped) first line
does not start with `CREATE TABLE ` makes both variants of
`format_create_table_info` return the explicit empty result (modelled as
`none`) instead of a table structure, and the empty result is treated by
the table diff as an absent table: it never raises, whichever side it sits
on, so the run continues.  The diagnostic behaviour differs by variant: the
runqueries variant emits exactly one `log.error` diagnostic per occurrence,
while the checktables variant emits none — its malformed branch returns
silently, the logging left as a FIXME. -/
theorem c9_malformed_ddl (name ddl : String) (l0 : String)
    (h0 : (((splitOnPred (fun c => c == '\n') ddl.data).map String.mk).map
        stripLine).head? = some l0)
    (hbad : pyStartsWith l0 "CREATE TABLE " = false) :
    format_create_table_info [(name, ddl)] = .ok (none, 1) ∧
    format_create_table_info_checktables [(name, ddl)] = .ok (none, 0) ∧
    (∀ ig host r table wiki,
      (display_table_diffs ig host none r table wiki).2 = none) ∧
    (∀ ig host t table wiki,
      display_table_diffs ig host none (some t) table wiki
        = ([Finding.tableMissingOnMaster table], none)) := by
  refine ⟨?_, ?_, ?_, ?_⟩
  · unfold format_create_table_info
    simp only [List.head?_cons]
    rw [h0]
    simp [hbad]
  · unfold format_create_table_info_checktables
    simp only [List.head?_cons]
    rw [h0]
    simp [hbad]
  · intro ig host r table wiki
    cases r <;> rfl
  · intro ig host t table wiki
    rfl

/-- Witness for C9 (amended): a concrete garbage result through both
variants. -/
theorem c9_malformed_ddl_witness :
    format_create_table_info [("page", "garbage output")] = .ok (none, 1) ∧
    format_create_table_info_checktables [("page", "garbage output")]
      = .ok (none, 0) ∧
    (display_table_diffs default_params_ignore "h" none (some scn_master)
      "page" "w").2 = none := by
  have h := c9_malformed_ddl "page" "garbage output" "garbage output"
    (by rfl) (by rfl)
  exact ⟨h.1, h.2.1,
    by rw [h.2.2.2 default_params_ignore "h" scn_master "page" "w"]⟩

/-- Counterexample for C9 as stated: the checktables variant of
`format_create_table_info`, one of the claim's cited sources, returns its
explicit empty result for malformed DDL with ZERO diagnostics — its
malformed branch carries only a FIXME comment about logging — while the
runqueries variant emits one; so "a diagnostic is emitted once per
occurrence" does not hold of every cited variant. -/
theorem c9_counterexample :
    format_create_table_info_checktables [("page", "garbage output")]
      = .ok (none, 0) ∧
    format_create_table_info [("page", "garbage output")]
      = .ok (none, 1) := by
  constructor
  · rfl
  · rfl

theorem mismatch_filter_missing_extra (table host wiki : String)
    (l1 l2 : List String) (tail : List Finding) :
    ((l1.map (fun c => Finding.columnMissing table c host wiki)) ++
     ((l2.map (fun c => Finding.columnExtra table c host wiki)) ++ tail)).filter
       isMismatchFinding = tail.filter isMismatchFinding := by
  rw [List.filter_append, List.filter_append]
  have h1 : (l1.map (fun c => Finding.columnMissing table c host wiki)).filter
      isMismatchFinding = [] := by
    rw [List.filter_eq_nil_iff]
    intro a ha
    obtain ⟨x, _, rfl⟩ := List.mem_map.mp ha
    simp [isMismatchFinding]
  have h2 : (l2.map (fun c => Finding.columnExtra table c host wiki)).filter
      isMismatchFinding = [] := by
    rw [List.filter_eq_nil_iff]
    intro a ha
    obtain ⟨x, _, rfl⟩ := List.mem_map.mp ha
    simp [isMismatchFinding]
  simp [h1, h2]

/-- C1 (amended): the column diff emits a mismatch finding only for the
final column of the baseline in insertion order, and only when that column
is present in the target with different property text; no other common
column ever yields a mismatch, earlier differing common columns included.
When the final baseline column is present on both sides the function
completes without error and its mismatch findings are exactly the indicated
singleton or empty list. -/
theorem c1_amended (host table wiki : String) (m r : TableInfo)
    (c mv rv : String)
    (hlast : (m.columns.map Prod.fst).getLast? = some c)
    (hm : alookup c m.columns = some mv)
    (hr : alookup c r.columns = some rv) :
    (display_column_diffs host m r table wiki).2 = none ∧
    (display_column_diffs host m r table wiki).1.filter isMismatchFinding
      = (if mv ≠ rv then [Finding.columnMismatch table c rv] else []) ∧
    (∀ tb col pr, Finding.columnMismatch tb col pr
        ∈ (display_column_diffs host m r table wiki).1 → col = c) := by
  unfold display_column_diffs
  simp only [hlast, hm, hr]
  refine ⟨by trivial, ?_, ?_⟩
  · rw [List.append_assoc, mismatch_filter_missing_extra]
    by_cases hne : mv = rv
    · simp [hne]
    · simp [hne, isMismatchFinding, List.filter]
  · intro tb col pr hmem
    rcases List.mem_append.mp hmem with h12 | h3
    · rcases List.mem_append.mp h12 with h1 | h2
      · obtain ⟨x, _, hx⟩ := List.mem_map.mp h1
        simp at hx
      · obtain ⟨x, _, hx⟩ := List.mem_map.mp h2
        simp at hx
    · by_cases hne : mv = rv
      · rw [if_neg (by simp [hne])] at h3
        simp at h3
      · rw [if_pos (by exact hne)] at h3
        have he := List.mem_singleton.mp h3
        exact ((Finding.columnMismatch.injEq _ _ _ _ _ _).mp he).2.1

/-- Witness for C1 (amended): baseline columns a, b against a target whose
column b differs; exactly the mismatch on b is reported. -/
theorem c1_amended_witness :
    (display_column_diffs "h" cex_master_ab cex_last_diff_repl "t" "w").2
      = none ∧
    (display_column_diffs "h" cex_master_ab cex_last_diff_repl "t" "w").1.filter
        isMismatchFinding
      = [Finding.columnMismatch "t" "b" "bigint NOT NULL"] ∧
    (∀ tb col pr, Finding.columnMismatch tb col pr
        ∈ (display_column_diffs "h" cex_master_ab cex_last_diff_repl "t" "w").1
        → col = "b") := by
  have h := c1_amended "h" "t" "w" cex_master_ab cex_last_diff_repl "b"
    "blob NOT NULL" "bigint NOT NULL" (by decide) (by decide) (by decide)
  refine ⟨h.1, ?_, h.2.2⟩
  rw [h.2.1]
  decide

/-- Counterexample for C1 as stated: for baseline columns a, b and a target
differing on a but agreeing on b, the one column present on both sides with
different property text — hence also the last such column in baseline
order — is a, yet the column diff emits no mismatch finding at all, because
the dedented final check only ever looks at the last baseline column b. -/
theorem c1_counterexample :
    ((cex_master_ab.columns.map Prod.fst).filter (fun c =>
        (alookup c cex_repl_ab.columns).isSome &&
        decide (alookup c cex_master_ab.columns
          ≠ alookup c cex_repl_ab.columns)) = ["a"]) ∧
    display_column_diffs "h" cex_master_ab cex_repl_ab "t" "w"
      = ([], none) := by
  constructor
  · decide
  · decide

/-- C10 (amended): the dedented mismatch check makes the column diff
non-total, in three regimes.  If the baseline has columns and its last one
is absent from the target, the missing and extra findings are printed and
then the target subscript raises KeyError on that column.  If both sides
have zero columns, the loop variable was never bound and the check raises
an unbound-local error.  But for a zero-column baseline and a target with
columns — the case the claim calls an unbound reference — the variable still
holds the last target column from the extra-columns loop, and it is the
baseline subscript that raises KeyError on it. -/
theorem c10_amended (host table wiki : String) (m r : TableInfo) :
    (∀ c, (m.columns.map Prod.fst).getLast? = some c →
        alookup c r.columns = none →
        display_column_diffs host m r table wiki =
          (((m.columns.map Prod.fst).filter (fun x => !(amem x r.columns))).map
             (fun x => Finding.columnMissing table x host wiki) ++
           ((r.columns.map Prod.fst).filter (fun x => !(amem x m.columns))).map
             (fun x => Finding.columnExtra table x host wiki),
           some (.keyError c))) ∧
    (m.columns = [] → r.columns = [] →
        display_column_diffs host m r table wiki = ([], some .unboundLocal)) ∧
    (∀ c, m.columns = [] → (r.columns.map Prod.fst).getLast? = some c →
        (display_column_diffs host m r table wiki).2
          = some (.keyError c)) := by
  refine ⟨?_, ?_, ?_⟩
  · intro c hlast hrnone
    have hcm : c ∈ m.columns.map Prod.fst := mem_of_getLast?_eq hlast
    obtain ⟨mv, hmv⟩ := Option.isSome_iff_exists.mp
      ((alookup_isSome_iff c m.columns).mpr hcm)
    unfold display_column_diffs
    simp [hlast, hmv, hrnone]
  · intro hm0 hr0
    unfold display_column_diffs
    simp [hm0, hr0]
  · intro c hm0 hrlast
    unfold display_column_diffs
    simp [hm0, hrlast, alookup]

/-- Witness for C10 (amended), one instance per regime. -/
theorem c10_amended_witness :
    display_column_diffs "h" cex_last_absent_master cex_last_absent_repl "t"
        "w" = ([Finding.columnMissing "t" "gone" "h" "w"],
               some (.keyError "gone")) ∧
    display_column_diffs "h" cex_zero_columns cex_zero_columns "t" "w"
      = ([], some .unboundLocal) ∧
    (display_column_diffs "h" cex_zero_col_master cex_one_col_repl "t" "w").2
      = some (.keyError "extra") := by
  refine ⟨?_, ?_, ?_⟩
  · have h := (c10_amended "h" "t" "w" cex_last_absent_master
      cex_last_absent_repl).1 "gone" (by decide) (by decide)
    rw [h]
    decide
  · exact (c10_amended "h" "t" "w" cex_zero_columns cex_zero_columns).2.1
      (by decide) (by decide)
  · exact (c10_amended "h" "t" "w" cex_zero_col_master cex_one_col_repl).2.2
      "extra" (by decide) (by decide)

/-- Counterexample for C10 as stated: a zero-column baseline against a
target with one column raises KeyError — the loop variable is bound by the
second loop — not an unbound-local reference as the claim asserts for every
zero-column baseline. -/
theorem c10_counterexample :
    display_column_diffs "h" cex_zero_col_master cex_one_col_repl "t" "w"
      = ([Finding.columnExtra "t" "extra" "h" "w"], some (.keyError "extra")) ∧
    (display_column_diffs "h" cex_zero_col_master cex_one_col_repl "t" "w").2
      ≠ some .unboundLocal := by
  constructor
  · decide
  · decide

/-- C2 (amended): the canonicalizer is insensitive to column insertion order
and to parameter token order — two structures with the same table name, the
same column-name-to-property-text mapping, the same ignore-filtered
parameter map and the same key-line LIST get byte-identical canonical
serializations.  Key-line order is not quotiented out: the key lines are
serialized as an ordered json array, so equal key SETS in different orders
give different canonical keys, as the counterexample shows. -/
theorem c2_amended (t1 t2 : TableInfo) (ig : List String) (p1 p2 : String)
    (htable : t1.table = t2.table)
    (hcolperm : (t1.columns.map Prod.fst).Perm (t2.columns.map Prod.fst))
    (hcollook : ∀ k, alookup k t1.columns = alookup k t2.columns)
    (hkeys : t1.keys = t2.keys)
    (hp1 : t1.parameters.head? = some p1)
    (hp2 : t2.parameters.head? = some p2)
    (hparperm : ((paramsFilterIgnores (params_to_dict p1) ig).map
        Prod.fst).Perm ((paramsFilterIgnores (params_to_dict p2) ig).map
        Prod.fst))
    (hparlook : ∀ k, alookup k (paramsFilterIgnores (params_to_dict p1) ig)
        = alookup k (paramsFilterIgnores (params_to_dict p2) ig)) :
    canonical_table_json t1 ig = canonical_table_json t2 ig := by
  unfold canonical_table_json
  simp only [hp1, hp2]
  have hcols := jsonStrDict_congr hcolperm hcollook
  have hpars := jsonParamDict_congr hparperm (fun k _ => hparlook k)
  rw [hcols, hpars, hkeys, htable]

/-- Witness for C2 (amended): shuffled column insertion order alone leaves
the canonical key unchanged. -/
theorem c2_amended_witness :
    canonical_table_json cex_cols_one default_params_ignore
      = canonical_table_json cex_cols_two default_params_ignore := by
  have hlook : ∀ k, alookup k cex_cols_one.columns
      = alookup k cex_cols_two.columns := by
    intro k
    by_cases h1 : "a" = k
    · have h2 : ¬ "b" = k := by rw [← h1]; decide
      simp [cex_cols_one, cex_cols_two, alookup, h1, h2]
    · by_cases h2 : "b" = k <;>
        simp [cex_cols_one, cex_cols_two, alookup, h1, h2]
  exact c2_amended cex_cols_one cex_cols_two default_params_ignore
    ") ENGINE=InnoDB" ") ENGINE=InnoDB" rfl (by decide) hlook rfl rfl rfl
    (List.Perm.refl _) (fun k => rfl)

/-- Counterexample for C2 as stated: two structures identical in columns,
table name and parameters, whose key lines form the same set in different
orders, receive different canonical keys. -/
theorem c2_counterexample :
    cex_keys_one.columns = cex_keys_two.columns ∧
    cex_keys_one.table = cex_keys_two.table ∧
    cex_keys_one.parameters = cex_keys_two.parameters ∧
    cex_keys_one.keys.Perm cex_keys_two.keys ∧
    canonical_table_json cex_keys_one default_params_ignore
      ≠ canonical_table_json cex_keys_two default_params_ignore := by
  refine ⟨rfl, rfl, rfl, by decide, by decide⟩

/-- C3 (amended): two structures that differ only in the values of
ignore-listed parameters get byte-identical canonical keys, and the
parameter diff report of the pair is EMPTY, not non-empty: the runqueries
display path filters with the very same `params_ignore` list the grouping
uses (`self.args` in both `display_parameter_diffs` and the
`flatten_table_info` call site), so a value difference confined to ignored
parameters is suppressed from the report as well. -/
theorem c3_amended (ig : List String) (host table wiki : String)
    (m r : TableInfo) (pm pr : String)
    (hmp : m.parameters.head? = some pm)
    (hrp : r.parameters.head? = some pr)
    (hcols : m.columns = r.columns) (hkeys : m.keys = r.keys)
    (htab : m.table = r.table)
    (hfst : (params_to_dict pm).map Prod.fst
      = (params_to_dict pr).map Prod.fst)
    (hvals : ∀ k, k ∉ ig →
      alookup k (params_to_dict pm) = alookup k (params_to_dict pr)) :
    canonical_table_json m ig = canonical_table_json r ig ∧
    display_parameter_diffs ig host m r table wiki = ([], none) := by
  constructor
  · unfold canonical_table_json
    simp only [hmp, hrp]
    have hfiltfst : (paramsFilterIgnores (params_to_dict pm) ig).map Prod.fst
        = (paramsFilterIgnores (params_to_dict pr) ig).map Prod.fst := by
      rw [map_fst_filter_ignores, map_fst_filter_ignores, hfst]
    have hfiltlook : ∀ k,
        k ∈ (paramsFilterIgnores (params_to_dict pm) ig).map Prod.fst →
        alookup k (paramsFilterIgnores (params_to_dict pm) ig)
          = alookup k (paramsFilterIgnores (params_to_dict pr) ig) := by
      intro k hk
      have hnig : k ∉ ig := not_ignored_of_mem_filtered hk
      rw [alookup_filter_ignores hnig, alookup_filter_ignores hnig]
      exact hvals k hnig
    have hpars := jsonParamDict_congr (hfiltfst ▸ List.Perm.refl _) hfiltlook
    rw [hpars, hcols, hkeys, htab]
  · unfold display_parameter_diffs
    simp only [hmp, hrp]
    by_cases hpp : pm = pr
    · simp [hpp]
    · have hmiss1 : ((params_to_dict pm).map Prod.fst).filter
          (fun field => field ∉ ig && !(amem field (params_to_dict pr)))
            = [] := by
        rw [List.filter_eq_nil_iff]
        intro f hf
        have hfr : f ∈ (params_to_dict pr).map Prod.fst := by
          rw [← hfst]; exact hf
        simp [(amem_eq_true_iff f (params_to_dict pr)).mpr hfr]
      have hmiss2 : ((params_to_dict pr).map Prod.fst).filter
          (fun field => field ∉ ig && !(amem field (params_to_dict pm)))
            = [] := by
        rw [List.filter_eq_nil_iff]
        intro f hf
        have hfm : f ∈ (params_to_dict pm).map Prod.fst := by
          rw [hfst]; exact hf
        simp [(amem_eq_true_iff f (params_to_dict pm)).mpr hfm]
      have hdiffs : (params_to_dict pm).filterMap (fun p =>
          if p.1 ∈ ig then none
          else match alookup p.1 (params_to_dict pr) with
            | none => none
            | some rv =>
              if p.2 ≠ rv ∧ p.1 ∉ ig then
                some (p.1 ++ ": master " ++
                      (p.2.getD "None") ++ ", repl " ++ (rv.getD "None"))
              else none) = [] := by
        rw [List.filterMap_eq_nil_iff]
        intro p hp
        by_cases hig : p.1 ∈ ig
        · simp [hig]
        · have hlk : alookup p.1 (params_to_dict pm) = some p.2 :=
            alookup_eq_some_of_mem_nodup (params_to_dict_keys_nodup pm) hp
          have hrv : alookup p.1 (params_to_dict pr) = some p.2 := by
            rw [← hvals p.1 hig]
            exact hlk
          simp [hig, hrv]
      rw [if_neg hpp]
      simp only [hmiss1, hmiss2, hdiffs]
      simp

/-- Witness for C3 (amended): the AUTO_INCREMENT=5 versus 900 pair under the
default ignore list. -/
theorem c3_amended_witness :
    canonical_table_json scn_master default_params_ignore
      = canonical_table_json scn_repl_same default_params_ignore ∧
    display_parameter_diffs default_params_ignore "h" scn_master scn_repl_same
      "page" "w" = ([], none) := by
  have e1 : params_to_dict
      ") ENGINE=InnoDB AUTO_INCREMENT=5 DEFAULT CHARSET=binary"
      = [("ENGINE", some "InnoDB"), ("AUTO_INCREMENT", some "5"),
         ("DEFAULT", none), ("CHARSET", some "binary")] := by decide
  have e2 : params_to_dict
      ") ENGINE=InnoDB AUTO_INCREMENT=900 DEFAULT CHARSET=binary"
      = [("ENGINE", some "InnoDB"), ("AUTO_INCREMENT", some "900"),
         ("DEFAULT", none), ("CHARSET", some "binary")] := by decide
  refine c3_amended default_params_ignore "h" "page" "w" scn_master
    scn_repl_same ") ENGINE=InnoDB AUTO_INCREMENT=5 DEFAULT CHARSET=binary"
    ") ENGINE=InnoDB AUTO_INCREMENT=900 DEFAULT CHARSET=binary" rfl rfl rfl
    rfl rfl ?_ ?_
  · rw [e1, e2]
    decide
  · intro k hk
    rw [e1, e2]
    by_cases hA : "AUTO_INCREMENT" = k
    · exact absurd (show k ∈ default_params_ignore by
        rw [← hA]; decide) hk
    · by_cases h1 : "ENGINE" = k <;> by_cases h2 : "DEFAULT" = k <;>
        by_cases h3 : "CHARSET" = k <;> simp [alookup, h1, h2, h3, hA]

/-- Counterexample for C3 as stated: the canonical keys of the
AUTO_INCREMENT=5 versus 900 pair are equal, their raw parameter lines
differ, and the parameter diff prints NOTHING — the report is empty, not
non-empty, because the display path in the runqueries variant uses the same
`params_ignore` list as the grouping, not a distinct display ignore list. -/
theorem c3_counterexample :
    canonical_table_json scn_master default_params_ignore
      = canonical_table_json scn_repl_same default_params_ignore ∧
    scn_master.parameters ≠ scn_repl_same.parameters ∧
    display_parameter_diffs default_params_ignore "h" scn_master scn_repl_same
      "page" "w" = ([], none) := by
  refine ⟨by rfl, by decide, by decide⟩

/-- C4: for a duplicate-free host list the grouping partitions exactly the
listed hosts that have a matrix entry (a flattened description) for the
wiki: the total occurrences of a host across all buckets is one when the
host is listed and has an entry and zero otherwise, so each such host sits
in exactly one bucket exactly once, the union of the buckets is exactly the
set of listed hosts with an entry, and a host without an entry for that
wiki lands in no bucket. -/
theorem c4_grouping_partition (descr : HostWikiDescr) (dbhosts : List String)
    (wiki : String) (hnd : dbhosts.Nodup) (host : String) :
    (((get_grouped_hosts_one_wiki descr dbhosts wiki).map
        Prod.snd).flatten.count host)
      = if host ∈ dbhosts ∧ (descrLookup descr host wiki).isSome
        then 1 else 0 :=
  grouped_hosts_count descr dbhosts wiki host hnd

/-- Witness for C4: a host with an entry is bucketed exactly once; a listed
host with no entry for the wiki is in no bucket. -/
theorem c4_grouping_partition_witness :
    (((get_grouped_hosts_one_wiki c8_descr ["m1", "r1", "r2"] "w").map
        Prod.snd).flatten.count "r1") = 1 ∧
    (((get_grouped_hosts_one_wiki c8_descr ["m1", "r1", "r2", "r3"] "w").map
        Prod.snd).flatten.count "r3") = 0 := by
  constructor
  · rw [c4_grouping_partition c8_descr ["m1", "r1", "r2"] "w" (by decide)
      "r1"]
    decide
  · rw [c4_grouping_partition c8_descr ["m1", "r1", "r2", "r3"] "w"
      (by decide) "r3"]
    decide

/-- C5 (code bug): the unknown-database handling of `check_tables` is dead
code.  The call at check_table_structures.py line 558 passes
`(wiki, dbcursor)` to `do_use_wiki(self, cursor, wiki, ...)`, so the wiki
parameter receives the cursor object (None on a dryrun) and the `USE `
string concatenation raises TypeError on every call — live or dryrun,
whatever the engine would answer — before any USE reaches the engine.  The
engine can therefore never report 1049 through this path and no
(host, database) cell is ever populated: the run aborts instead of shaping
a sparse matrix.  Called with the arguments in the documented order, the
same `do_use_wiki` absorbs a 1049 response as the None outcome, which is
the handling the claim and the spec describe; the sibling caller in
explain_sql_query.py uses exactly that (cursor, wiki) order. -/
theorem c5_swapped_use_wiki_type_error :
    (∀ (w : String) (resp : EngineUseResponse) (tables : List String)
        (fetch : String → Option TableInfo),
      check_tables w .cursorObj false resp tables fetch
        = .error .typeError) ∧
    (∀ (w : String) (resp : EngineUseResponse) (tables : List String)
        (fetch : String → Option TableInfo),
      check_tables w .pyNone true resp tables fetch
        = .error .typeError) ∧
    do_use_wiki .cursorObj (.str "enwiki") false (.err 1049) true
      = .ok .lostConn :=
  ⟨fun _ resp _ _ => by cases resp <;> rfl,
   fun _ resp _ _ => by cases resp <;> rfl,
   rfl⟩

/-- C8 (amended): in per-shard mode, with the master and two replicas
sharing one flattened description `d` (the replicas byte-identical to each
other and differing from the master only in ignore-listed parameters such
as AUTO_INCREMENT), all three hosts land in the same single group, and the
matching-group lookup returns that group for either replica — but NO
replica is ever diffed against the master, let alone exactly once, and none
against the other: the per-wiki body of display_diffs_master_per_sect
raises TypeError while formatting its host-groups log line (joining a dict
values view), before the diff-selection loop runs, so zero diffs are
performed. -/
theorem c8_amended (w d m r1 r2 : String) (tmM tmR : TableMap)
    (ig : List String)
    (hr1m : r1 ≠ m) (hr2m : r2 ≠ m) (hr12 : r1 ≠ r2)
    (hflatM : flatten_one_wiki tmM ig = .ok d)
    (hflatR : flatten_one_wiki tmR ig = .ok d) :
    get_grouped_hosts_one_wiki
        [(m, [(w, d)]), (r1, [(w, d)]), (r2, [(w, d)])] [m, r1, r2] w
      = [(d, [m, r1, r2])] ∧
    get_matching_hosts r1 [(d, [m, r1, r2])] = [m, r1, r2] ∧
    get_matching_hosts r2 [(d, [m, r1, r2])] = [m, r1, r2] ∧
    display_diffs_per_sect_wiki
        [(m, [(w, d)]), (r1, [(w, d)]), (r2, [(w, d)])] [m, r1, r2] m w
      = ([(d, [m, r1, r2])], [], some .typeError) := by
  have hmr1 : ¬ m = r1 := fun e => hr1m e.symm
  have hmr2 : ¬ m = r2 := fun e => hr2m e.symm
  have hr1r2 : ¬ r1 = r2 := hr12
  have hb1 : (r1 == m) = false := by simpa using hr1m
  have hb2 : (r2 == m) = false := by simpa using hr2m
  have hb3 : (r2 == r1) = false := by simpa using fun e => hr12 e.symm
  have hgroup : get_grouped_hosts_one_wiki
      [(m, [(w, d)]), (r1, [(w, d)]), (r2, [(w, d)])] [m, r1, r2] w
      = [(d, [m, r1, r2])] := by
    unfold get_grouped_hosts_one_wiki
    simp [descrLookup, alookup, add_host_to_groups, amem, hmr1, hmr2, hr1r2]
  refine ⟨hgroup, ?_, ?_, ?_⟩
  · unfold get_matching_hosts
    simp [List.find?, List.contains, hb1]
  · unfold get_matching_hosts
    simp [List.find?, List.contains, hb2, hb3]
  · unfold display_diffs_per_sect_wiki
    rw [hgroup]

/-- Witness for C8 (amended): the concrete AUTO_INCREMENT scenario maps. -/
theorem c8_amended_witness :
    get_grouped_hosts_one_wiki c8_descr ["m1", "r1", "r2"] "w"
      = [(c8_descr_val, ["m1", "r1", "r2"])] ∧
    get_matching_hosts "r1" [(c8_descr_val, ["m1", "r1", "r2"])]
      = ["m1", "r1", "r2"] ∧
    get_matching_hosts "r2" [(c8_descr_val, ["m1", "r1", "r2"])]
      = ["m1", "r1", "r2"] ∧
    display_diffs_per_sect_wiki c8_descr ["m1", "r1", "r2"] "m1" "w"
      = ([(c8_descr_val, ["m1", "r1", "r2"])], [], some .typeError) :=
  c8_amended "w" c8_descr_val "m1" "r1" "r2" c8_tm_master c8_tm_repl
    default_params_ignore (by decide) (by decide) (by decide) (by rfl)
    (by rfl)

/-- Counterexample for C8 as stated: in the concrete scenario both replicas
share the master's group, yet neither replica is diffed against the master
even once — the per-wiki body aborts with TypeError at its host-groups log
line before the diff-selection loop, so the diffed-replicas list is empty,
refuting "each is diffed against the master exactly once". -/
theorem c8_counterexample :
    get_matching_hosts "r1"
        (get_grouped_hosts_one_wiki c8_descr ["m1", "r1", "r2"] "w")
      = get_matching_hosts "r2"
        (get_grouped_hosts_one_wiki c8_descr ["m1", "r1", "r2"] "w") ∧
    "r1" ∈ get_matching_hosts "r1"
        (get_grouped_hosts_one_wiki c8_descr ["m1", "r1", "r2"] "w") ∧
    "r2" ∈ get_matching_hosts "r1"
        (get_grouped_hosts_one_wiki c8_descr ["m1", "r1", "r2"] "w") ∧
    ((display_diffs_per_sect_wiki c8_descr ["m1", "r1", "r2"] "m1"
        "w").2.1.count "r1") = 0 ∧
    ((display_diffs_per_sect_wiki c8_descr ["m1", "r1", "r2"] "m1"
        "w").2.1.count "r2") = 0 ∧
    (display_diffs_per_sect_wiki c8_descr ["m1", "r1", "r2"] "m1" "w").2.2
      = some PyError.typeError := by
  set_option maxRecDepth 8000 in decide
